import Mathlib

/-!
Shallow embedding of `facebook_scraper.py`.

The script drives a browser session (an external collaborator) through four
stages: consent dismissal, login (`login_to_facebook`), search
(`search_facebook`) and content extraction (`extract_recent_posts`),
orchestrated by `main`.  Every collaborator call that can raise in Python is
modelled as an `Except PwError` value supplied by a page structure; the two
exception classes the script distinguishes (`PlaywrightTimeoutError` and a
generic `Exception`) are the two constructors of `PwError`.  Visibility checks
(`is_visible`) are modelled as plain boolean attributes of elements, and URL /
title reads as plain string fields of the page.
-/

/-- The two kinds of collaborator failure the script distinguishes:
`timeout` models `PlaywrightTimeoutError`, `other` models any other
`Exception` raised by the browser session. -/
inductive PwError where
  | timeout
  | other
deriving DecidableEq, Repr

/-- Result of a collaborator call that can raise. -/
abbrev PwResult (α : Type) := Except PwError α

instance {ε α : Type} [DecidableEq ε] [DecidableEq α] : DecidableEq (Except ε α) := fun x y =>
  match x, y with
  | .ok a, .ok b =>
    if h : a = b then .isTrue (by rw [h]) else .isFalse (by simp [h])
  | .error a, .error b =>
    if h : a = b then .isTrue (by rw [h]) else .isFalse (by simp [h])
  | .ok _, .error _ => .isFalse (by simp)
  | .error _, .ok _ => .isFalse (by simp)

/-- Python substring containment `pat in s` on strings. -/
def containsSubstr (s pat : String) : Bool :=
  s.data.tails.any (fun t => pat.data.isPrefixOf t)

/-- Python `str.lower()`, modelled character-wise. -/
def pyLower (s : String) : String :=
  ⟨s.data.map Char.toLower⟩

/-- Python `str.strip()`: drop leading and trailing whitespace. -/
def pyStrip (s : String) : String :=
  ⟨((s.data.dropWhile Char.isWhitespace).reverse.dropWhile Char.isWhitespace).reverse⟩

/-! ## Content extractor and filter (`extract_recent_posts`, lines 220-297) -/

/-- The noise-phrase list `common_non_post_phrases` (lines 274-277). -/
def common_non_post_phrases : List String :=
  ["commented on this", "shared this", "reacted to this",
   "suggested for you", "people you may know", "is live now"]

/-- The rejection test of line 279:
`len(post_text.strip()) < 75 and any(phrase in text_lower for phrase in common_non_post_phrases)`
where `text_lower = post_text.lower()` (line 273). -/
def isRejectedByFilter (post_text : String) : Bool :=
  decide ((pyStrip post_text).length < 75) &&
    common_non_post_phrases.any (fun phrase => containsSubstr (pyLower post_text) phrase)

/-- A post-container element as the extraction loop sees it: its `is_visible()`
answer and the outcome of `inner_text()` (which may raise, caught at line 287). -/
structure PostEl where
  visible : Bool
  innerTextRes : PwResult String
deriving DecidableEq, Repr

/-- Outcome of probing one container selector (the `try` body, lines 243-254):
`wait_for_selector` may raise a `PlaywrightTimeoutError` (caught at line 255),
the probe may raise a generic error (NOT caught: the per-selector handler
catches only the timeout class), or it yields the `query_selector_all` list. -/
inductive SelOutcome where
  | timeout
  | err
  | found (els : List PostEl)
deriving DecidableEq, Repr

/-- The visible subset a candidate yields (line 248:
`[el for el in elements_found if el.is_visible()]`); a timed-out or erroring
candidate yields none. -/
def visibleOf : SelOutcome → List PostEl
  | .found els => els.filter (fun el => el.visible)
  | _ => []

/-- The selector-fallback loop of lines 240-257: try each container selector in
order; on timeout continue to the next; take the first selector whose visible
subset is non-empty; a generic error propagates (only the timeout class is
caught there). Returns `none` when all candidates are exhausted (line 259). -/
def resolveLoop : List SelOutcome → PwResult (Option (List PostEl))
  | [] => pure none
  | o :: rest =>
    match o with
    | .timeout => resolveLoop rest
    | .err => .error .other
    | .found els =>
      let visible_elements := els.filter (fun el => el.visible)
      if visible_elements.isEmpty then resolveLoop rest
      else pure (some visible_elements)

/-- The element scan of lines 265-288, with the running `enumerate` index `i`:
`if i >= count: break`; a raised `inner_text` error is caught (line 287) and the
loop continues; empty-after-strip text is skipped (line 285); the filter of
line 279 skips via `continue`; otherwise `post_text.strip()` is appended. -/
def scanGo (count : Nat) : Nat → List PostEl → List String
  | _, [] => []
  | i, el :: rest =>
    if count ≤ i then []
    else
      match el.innerTextRes with
      | .error _ => scanGo count (i + 1) rest
      | .ok post_text =>
        if pyStrip post_text = "" then scanGo count (i + 1) rest
        else if isRejectedByFilter post_text then scanGo count (i + 1) rest
        else pyStrip post_text :: scanGo count (i + 1) rest

/-- The full post-processing loop (`for i, post_element in enumerate(post_elements)`)
starting from index 0. -/
def scanPosts (count : Nat) (post_elements : List PostEl) : List String :=
  scanGo count 0 post_elements

/-- The container-selector candidate list of lines 230-236. -/
def post_container_selectors : List String :=
  ["article",
   "div[role=\"article\"]",
   "div[data-pagelet^=\"FeedUnit\"]",
   "div[data-mcomponent=\"ServerFeedUnit\"]",
   "div[aria-posinset]"]

/-- The page as `extract_recent_posts` consumes it: each container selector
probes to an outcome, and each named screenshot call has an outcome (the two
screenshot calls at lines 261 and 290 sit outside every `try`). -/
structure ExtractPage where
  selectorOutcome : String → SelOutcome
  screenshot : String → PwResult Unit

/-- `extract_recent_posts(page, count)` (lines 220-297): resolve the first
container selector with visible matches, scan its elements up to `count`,
with the unprotected diagnostic screenshots of lines 261 and 290. -/
def extract_recent_posts (page : ExtractPage) (count : Nat) : PwResult (List String) := do
  let posts? ← resolveLoop (post_container_selectors.map page.selectorOutcome)
  match posts? with
  | none => do
    page.screenshot "no_posts_found_on_page.png"
    pure []
  | some post_elements => do
    let extracted_posts := scanPosts count post_elements
    page.screenshot "post_extraction_attempt_done.png"
    pure extracted_posts

/-! ## Authentication flow (`login_to_facebook`, lines 88-154) -/

/-- A button element as seen by `query_selector`: its `is_visible()` answer and
the outcome of `click()` (which may raise). -/
structure BtnEl where
  visible : Bool
  clickRes : PwResult Unit
deriving DecidableEq, Repr

/-- The login-button candidate selectors of lines 106-110. -/
def login_button_selectors : List String :=
  ["button[name=\"login\"]",
   "button[type=\"submit\"]",
   "input[type=\"submit\"][value=\"Log In\"]"]

/-- The page as `login_to_facebook` consumes it.  `waitEmail` and `waitPass`
are the two `wait_for_selector` calls (lines 96, 101); `fillEmail`/`fillPass`
the two `page.fill` calls; `queryButton` is `page.query_selector` over the
login-button selectors; `url` the post-settle `page.url`; `emailAfterSubmit`
the post-settle email-input `query_selector` of line 134; and
`screenshot` the outcome of each named `page.screenshot` call. -/
structure LoginPage where
  waitEmail : PwResult Unit
  fillEmail : String → PwResult Unit
  waitPass : PwResult Unit
  fillPass : String → PwResult Unit
  queryButton : String → Option BtnEl
  url : String
  emailAfterSubmit : Option BtnEl
  screenshot : String → PwResult Unit

/-- The login-button loop of lines 112-119: for each selector, if
`query_selector` finds a visible button, click it and stop; returns whether a
button was found and clicked. A raised `click` propagates to the outer
handlers. -/
def clickLoginButton (page : LoginPage) : List String → PwResult Bool
  | [] => pure false
  | selector :: rest =>
    match page.queryButton selector with
    | none => clickLoginButton page rest
    | some button =>
      if button.visible then do
        button.clickRes
        pure true
      else clickLoginButton page rest

/-- The post-settle check of lines 134: the email input is still present and
`is_visible()`. -/
def emailStillVisible (page : LoginPage) : Bool :=
  match page.emailAfterSubmit with
  | none => false
  | some el => el.visible

/-- The `try` body of `login_to_facebook` (lines 94-145): fill both credential
fields, click the first visible login button (failing with a screenshot and
`False` when none is found, lines 121-124), settle, then classify the
post-submit state by the conditional chain of lines 130-145. -/
def loginAttempt (page : LoginPage) (email password : String) : PwResult Bool := do
  page.waitEmail
  page.fillEmail email
  page.waitPass
  page.fillPass password
  let login_button_found ← clickLoginButton page login_button_selectors
  if !login_button_found then do
    page.screenshot "login_button_not_found.png"
    pure false
  else if containsSubstr (pyLower page.url) "checkpoint" then do
    page.screenshot "login_failed_checkpoint.png"
    pure false
  else if emailStillVisible page then do
    page.screenshot "login_failed_email_still_visible.png"
    pure false
  else if containsSubstr (pyLower page.url) "login" &&
      !containsSubstr (pyLower page.url) "home.php" &&
      !containsSubstr (pyLower page.url) "search" then do
    page.screenshot "login_failed_still_on_login_page.png"
    pure false
  else do
    page.screenshot "login_success_evidence.png"
    pure true

/-- `login_to_facebook(page, email, password)` (lines 88-154): the `try` body
with its two handlers (`except PlaywrightTimeoutError`, line 147, and
`except Exception`, line 151), each of which takes a screenshot — a call that
can itself raise, re-propagating — and returns `False`. -/
def login_to_facebook (page : LoginPage) (email password : String) : PwResult Bool :=
  match loginAttempt page email password with
  | .ok b => .ok b
  | .error .timeout => do
    page.screenshot "login_timeout_error.png"
    pure false
  | .error .other => do
    page.screenshot "login_generic_error.png"
    pure false

/-! ## Search flow (`search_facebook`, lines 156-218) -/

/-- A search trigger/input element: its `is_visible()` answer, the outcome of
`tag_name()` (a collaborator call that may raise), of `fill(keyword)` and of
`click()`. -/
structure TriggerEl where
  visible : Bool
  tagNameRes : PwResult String
  fillRes : String → PwResult Unit
  clickRes : PwResult Unit

/-- The search trigger/input candidate selectors of lines 164-168. -/
def search_trigger_selectors : List String :=
  ["a[aria-label*=\"Search\"]", "button[aria-label*=\"Search\"]",
   "a[href*=\"/search/\"]", "button[data-testid*=\"search_input\"]",
   "input[type=\"search\"]", "input[name=\"q\"]"]

/-- The default search-field selector of line 169, used when the matched
candidate is a trigger rather than an input. -/
def default_search_field : String := "input[type=\"search\"], input[name=\"q\"]"

/-- The page as `search_facebook` consumes it.  `queryTrigger` is
`page.query_selector` over the trigger selectors; `pageFill`/`pagePress` are
`page.fill(selector, ...)` and the Enter key-press `page.press`; `url` and
`title` the post-settle reads of line 207. -/
structure SearchPage where
  queryTrigger : String → Option TriggerEl
  pageFill : String → String → PwResult Unit
  pagePress : String → String → PwResult Unit
  url : String
  title : String
  screenshot : String → PwResult Unit

/-- The trigger loop of lines 172-193: for each selector, if a visible element
is found, branch on `tag_name()`: an input is filled directly (and becomes the
actual field selector), otherwise the trigger is clicked, the settle delay
passes, and the default field selector is filled.  Then screenshot, press
Enter on the actual field selector, and stop.  Any raise inside an iteration
aborts the whole loop to the outer handlers. -/
def searchLoop (page : SearchPage) (keyword : String) : List String → PwResult Bool
  | [] => pure false
  | selector :: rest =>
    match page.queryTrigger selector with
    | none => searchLoop page keyword rest
    | some trigger_element =>
      if trigger_element.visible then do
        let tag ← trigger_element.tagNameRes
        let search_field_actual_selector ←
          if tag = "input" then do
            trigger_element.fillRes keyword
            pure selector
          else do
            trigger_element.clickRes
            page.pageFill default_search_field keyword
            pure default_search_field
        page.screenshot "search_keyword_filled.png"
        page.pagePress search_field_actual_selector "Enter"
        pure true
      else searchLoop page keyword rest

/-- The soft validation of line 207: neither the current URL nor the page
title contains the keyword case-insensitively (warning only, line 208). -/
def searchSoftCheckFails (page : SearchPage) (keyword : String) : Bool :=
  !containsSubstr (pyLower page.url) (pyLower keyword) &&
    !containsSubstr (pyLower page.title) (pyLower keyword)

/-- The `try` body of `search_facebook` (lines 162-209): run the trigger loop;
if no interaction happened, screenshot and return `False` (lines 195-198);
otherwise settle, screenshot the results page, evaluate the soft check (which
only prints a warning) and return `True`. -/
def searchAttempt (page : SearchPage) (keyword : String) : PwResult Bool := do
  let search_interaction_done ← searchLoop page keyword search_trigger_selectors
  if !search_interaction_done then do
    page.screenshot "search_trigger_not_found.png"
    pure false
  else do
    page.screenshot "search_results_page.png"
    let _warned := searchSoftCheckFails page keyword
    pure true

/-- `search_facebook(page, keyword)` (lines 156-218): the `try` body with its
two handlers (lines 211-218), each taking a screenshot that can itself raise
and returning `False`. -/
def search_facebook (page : SearchPage) (keyword : String) : PwResult Bool :=
  match searchAttempt page keyword with
  | .ok b => .ok b
  | .error .timeout => do
    page.screenshot "search_timeout_error.png"
    pure false
  | .error .other => do
    page.screenshot "search_generic_error.png"
    pure false

/-! ## Orchestrator (`main`, lines 300-414) -/

/-- Python truthiness of `os.environ.get(...)`: `not fb_email` holds when the
variable is unset (`None`) or set to the empty string. -/
def envMissing : Option String → Bool
  | none => true
  | some s => s = ""

/-- The credential handling of lines 310-327: when `FB_EMAIL` or `FB_PASSWORD`
is missing, BOTH are replaced with the placeholder sentinels and
`using_placeholders` is set. Returns `(fb_email, fb_password, using_placeholders)`. -/
def resolveCredentials (fbEmailEnv fbPasswordEnv : Option String) :
    String × String × Bool :=
  if envMissing fbEmailEnv || envMissing fbPasswordEnv then
    ("YOUR_EMAIL", "YOUR_PASSWORD", true)
  else
    (fbEmailEnv.getD "", fbPasswordEnv.getD "", false)

/-- Observable events of one run of `main`: the collaborator-facing calls the
claims speak about. `closeBrowser` is the `browser.close()` of the `finally`
block (line 412). -/
inductive MainEvent where
  | launch
  | loginCall (email password : String)
  | searchCall (keyword : String)
  | extractCall (count : Nat)
  | closeBrowser
deriving DecidableEq, Repr

/-- The cookie-consent candidate selectors of lines 350-353. -/
def cookie_banner_selectors : List String :=
  ["button[data-cookiebanner=\"accept_button\"]",
   "//button[contains(text(), \"Allow all cookies\")]",
   "//button[contains(text(), \"Accept All\")]",
   "//button[contains(text(), \"Allow essential and optional cookies\")]"]

/-- The world `main` runs in: the outcome of `p.chromium.launch()` (line 335),
of `page.goto` (line 344), of the homepage screenshot (line 346), the cookie
buttons, the outcomes of the screenshots the cookie loop and the `main`
handlers can take, and the pages the three stages consume. -/
structure World where
  launchRes : PwResult Unit
  gotoRes : PwResult Unit
  homeScreenshot : PwResult Unit
  queryCookie : String → Option BtnEl
  cookieOkScreenshot : PwResult Unit
  cookieErrScreenshot : PwResult Unit
  mainErrScreenshot : PwResult Unit
  loginPage : LoginPage
  searchPage : SearchPage
  extractPage : ExtractPage

/-- The cookie-consent loop of lines 354-368: for each selector with a visible
button, try to click it and screenshot — a raise there is caught by the inner
handler (line 366), which screenshots (a call that can itself raise to the
outer handlers) and lets the loop continue; a successful click breaks. -/
def cookieLoop (w : World) : List String → PwResult Unit
  | [] => pure ()
  | selector :: rest =>
    match w.queryCookie selector with
    | none => cookieLoop w rest
    | some button =>
      if button.visible then
        match (do button.clickRes; w.cookieOkScreenshot : PwResult Unit) with
        | .ok _ => pure ()
        | .error _ => do
          w.cookieErrScreenshot
          cookieLoop w rest
      else cookieLoop w rest

/-- The `try` body of `main` (lines 332-402): launch, navigate, homepage
screenshot, cookie handling, then the three stages in sequence, each
short-circuiting the rest on failure.  Returns the trace of observable events
together with the body outcome (`.error` meaning an uncaught raise escaping
the body). The login attempt is made unconditionally (lines 377-380),
placeholders or not. -/
def mainBody (w : World) (email password : String) : List MainEvent × PwResult Unit :=
  match w.launchRes with
  | .error e => ([], .error e)
  | .ok _ =>
    match (do w.gotoRes; w.homeScreenshot; cookieLoop w cookie_banner_selectors :
        PwResult Unit) with
    | .error e => ([.launch], .error e)
    | .ok _ =>
      match login_to_facebook w.loginPage email password with
      | .error e => ([.launch, .loginCall email password], .error e)
      | .ok false => ([.launch, .loginCall email password], .ok ())
      | .ok true =>
        match search_facebook w.searchPage "Bkash" with
        | .error e =>
          ([.launch, .loginCall email password, .searchCall "Bkash"], .error e)
        | .ok false =>
          ([.launch, .loginCall email password, .searchCall "Bkash"], .ok ())
        | .ok true =>
          match extract_recent_posts w.extractPage 3 with
          | .error e =>
            ([.launch, .loginCall email password, .searchCall "Bkash",
              .extractCall 3], .error e)
          | .ok _posts =>
            ([.launch, .loginCall email password, .searchCall "Bkash",
              .extractCall 3], .ok ())

/-- `main()` (lines 300-414) — named `mainRun` here since Lean reserves `main`
for executable entry points: resolve credentials, run the body under the
`try`; a raise from the body is caught by the handlers of lines 404-409, which
screenshot when `page` exists (it does exactly when the launch succeeded — and
that screenshot itself may raise and escape `main`); the `finally` block
(lines 410-414) runs on every path and calls `browser.close()` exactly when
the launch had assigned `browser`.  Returns the event trace and the process
outcome. -/
def mainRun (fbEmailEnv fbPasswordEnv : Option String) (w : World) :
    List MainEvent × PwResult Unit :=
  let creds := resolveCredentials fbEmailEnv fbPasswordEnv
  let body := mainBody w creds.1 creds.2.1
  let handled : List MainEvent × PwResult Unit :=
    match body.2 with
    | .ok _ => (body.1, .ok ())
    | .error _ =>
      match w.launchRes with
      | .error _ => (body.1, .ok ())
      | .ok _ =>
        match w.mainErrScreenshot with
        | .ok _ => (body.1, .ok ())
        | .error e2 => (body.1, .error e2)
  match w.launchRes with
  | .ok _ => (handled.1 ++ [.closeBrowser], handled.2)
  | .error _ => (handled.1, handled.2)

/-! ## Concrete pages and worlds used to instantiate the theorems -/

/-- An extraction page where the first container selector yields five visible
elements: the first two are short interaction notices rejected by the filter,
the last three are genuine posts. -/
def fivePostsPage : ExtractPage where
  selectorOutcome := fun s =>
    if s = "article" then
      .found [⟨true, .ok "Alice shared this"⟩, ⟨true, .ok "Bob reacted to this"⟩,
              ⟨true, .ok "Post three about Bkash offers"⟩,
              ⟨true, .ok "Post four about Bkash agents"⟩,
              ⟨true, .ok "Post five about Bkash rates"⟩]
    else .timeout
  screenshot := fun _ => .ok ()

/-- A login page where both credential fields fill, the first login-button
selector matches a visible button, the post-submit URL carries no checkpoint
marker, and the email input is still present and visible after submit. -/
def c5Page : LoginPage where
  waitEmail := .ok ()
  fillEmail := fun _ => .ok ()
  waitPass := .ok ()
  fillPass := fun _ => .ok ()
  queryButton := fun s =>
    if s = "button[name=\"login\"]" then some ⟨true, .ok ()⟩ else none
  url := "https://m.facebook.com/login/?email_confirmed=0"
  emailAfterSubmit := some ⟨true, .ok ()⟩
  screenshot := fun _ => .ok ()

/-- The trigger element of `c6TriggerPage`: a visible link-shaped search
affordance. -/
def c6Trigger : TriggerEl where
  visible := true
  tagNameRes := .ok "a"
  fillRes := fun _ => .ok ()
  clickRes := .ok ()

/-- A search page where the first candidate resolves to a visible link-shaped
trigger, but after clicking it the fill of the default search-field selector
times out. -/
def c6TriggerPage : SearchPage where
  queryTrigger := fun s =>
    if s = "a[aria-label*=\"Search\"]" then some c6Trigger else none
  pageFill := fun _ _ => .error .timeout
  pagePress := fun _ _ => .ok ()
  url := "https://m.facebook.com/"
  title := "Facebook"
  screenshot := fun _ => .ok ()

/-- A search page where an input-shaped candidate resolves, filling and
submission succeed, but neither the URL nor the title mentions the query. -/
def c6InputPage : SearchPage where
  queryTrigger := fun s =>
    if s = "input[type=\"search\"]" then
      some ⟨true, .ok "input", fun _ => .ok (), .ok ()⟩
    else none
  pageFill := fun _ _ => .ok ()
  pagePress := fun _ _ => .ok ()
  url := "https://m.facebook.com/home.php"
  title := "Facebook"
  screenshot := fun _ => .ok ()

/-- A search page where no candidate selector matches anything. -/
def c6NonePage : SearchPage where
  queryTrigger := fun _ => none
  pageFill := fun _ _ => .ok ()
  pagePress := fun _ _ => .ok ()
  url := "https://m.facebook.com/"
  title := "Facebook"
  screenshot := fun _ => .ok ()

/-- An extraction page whose first selector yields a visible post but whose
screenshot collaborator raises a generic error. -/
def c7ShotFailPage : ExtractPage where
  selectorOutcome := fun s =>
    if s = "article" then
      .found [⟨true, .ok "A post about Bkash cashback promotions running this week"⟩]
    else .timeout
  screenshot := fun _ => .error .other

/-- A world where every collaborator call succeeds: launch, navigation and
homepage screenshot are fine, no cookie banner appears, and the three stage
pages are the all-succeeding concrete pages above. -/
def demoWorld : World where
  launchRes := .ok ()
  gotoRes := .ok ()
  homeScreenshot := .ok ()
  queryCookie := fun _ => none
  cookieOkScreenshot := .ok ()
  cookieErrScreenshot := .ok ()
  mainErrScreenshot := .ok ()
  loginPage := c5Page
  searchPage := c6InputPage
  extractPage := fivePostsPage

/-- The same world except that the browser launch itself raises, so `browser`
is never assigned. -/
def noLaunchWorld : World :=
  { demoWorld with launchRes := .error .other }

/-! ## Helper lemmas -/

theorem pw_bind_ok {α β : Type} (a : α) (f : α → PwResult β) :
    (Except.ok a : PwResult α) >>= f = f a := rfl

theorem pw_bind_err {α β : Type} (e : PwError) (f : α → PwResult β) :
    (Except.error e : PwResult α) >>= f = Except.error e := rfl

theorem pw_pure {α : Type} (a : α) : (pure a : PwResult α) = Except.ok a := rfl

theorem resolveLoop_skip (o : SelOutcome) (rest : List SelOutcome)
    (h1 : o ≠ SelOutcome.err) (h2 : visibleOf o = []) :
    resolveLoop (o :: rest) = resolveLoop rest := by
  cases o with
  | timeout => rfl
  | err => exact absurd rfl h1
  | found els =>
    simp only [visibleOf] at h2
    simp [resolveLoop, h2]

theorem resolveLoop_hit (o : SelOutcome) (rest : List SelOutcome)
    (h : visibleOf o ≠ []) :
    resolveLoop (o :: rest) = Except.ok (some (visibleOf o)) := by
  cases o with
  | timeout => exact absurd rfl h
  | err => exact absurd rfl h
  | found els =>
    simp only [visibleOf] at h ⊢
    simp [resolveLoop, List.isEmpty_iff, h]
    rfl

theorem scanGo_stop (count : Nat) (els : List PostEl) (i : Nat) (h : count ≤ i) :
    scanGo count i els = [] := by
  cases els with
  | nil => rfl
  | cons el rest => simp [scanGo, h]

theorem scanGo_length_le (count : Nat) :
    ∀ (els : List PostEl) (i : Nat), (scanGo count i els).length ≤ count - i := by
  intro els
  induction els with
  | nil => intro i; simp [scanGo]
  | cons el rest ih =>
    intro i
    by_cases h : count ≤ i
    · simp [scanGo, h]
    · have hrec := ih (i + 1)
      cases hel : el.innerTextRes with
      | error e =>
        simp only [scanGo, if_neg h, hel]
        omega
      | ok t =>
        simp only [scanGo, if_neg h, hel]
        by_cases h1 : pyStrip t = ""
        · simp [h1]; omega
        · by_cases h2 : isRejectedByFilter t
          · simp [h1, h2]; omega
          · simp [h1, h2]; omega

theorem scanGo_take (count : Nat) :
    ∀ (els : List PostEl) (i : Nat),
      scanGo count i els = scanGo count i (els.take (count - i)) := by
  intro els
  induction els with
  | nil => intro i; simp
  | cons el rest ih =>
    intro i
    by_cases h : count ≤ i
    · rw [scanGo_stop count _ i h, scanGo_stop count _ i h]
    · have hs : count - i = (count - (i + 1)) + 1 := by omega
      rw [hs, List.take_succ_cons]
      cases hel : el.innerTextRes with
      | error e =>
        simp only [scanGo, if_neg h, hel]
        exact ih (i + 1)
      | ok t =>
        simp only [scanGo, if_neg h, hel]
        by_cases h1 : pyStrip t = ""
        · simp [h1]; exact ih (i + 1)
        · by_cases h2 : isRejectedByFilter t
          · simp [h1, h2]; exact ih (i + 1)
          · simp [h1, h2]; exact ih (i + 1)

theorem scanGo_mem (count : Nat) :
    ∀ (els : List PostEl) (i : Nat) (s : String), s ∈ scanGo count i els →
      s ≠ "" ∧ ∃ t, s = pyStrip t := by
  intro els
  induction els with
  | nil => intro i s h; simp [scanGo] at h
  | cons el rest ih =>
    intro i s h
    by_cases hc : count ≤ i
    · rw [scanGo_stop count _ i hc] at h; simp at h
    · cases hel : el.innerTextRes with
      | error e =>
        simp only [scanGo, if_neg hc, hel] at h
        exact ih (i + 1) s h
      | ok t =>
        simp only [scanGo, if_neg hc, hel] at h
        by_cases h1 : pyStrip t = ""
        · simp only [if_pos h1] at h; exact ih (i + 1) s h
        · simp only [if_neg h1] at h
          by_cases h2 : isRejectedByFilter t
          · simp only [h2, if_true] at h; exact ih (i + 1) s h
          · simp only [h2, if_false] at h
            rcases List.mem_cons.mp h with heq | hmem
            · exact ⟨heq ▸ h1, t, heq⟩
            · exact ih (i + 1) s hmem

/-! ## Claim theorems -/

/-- C2: for every strategy decomposed as a priority-ordered list of candidate
outcomes, the resolver returns exactly the visible-element set of the first
candidate whose visible set is non-empty, and the outcomes of the candidates
after that one are irrelevant — they are never probed, so no elements from two
candidates are ever mixed. -/
theorem resolver_first_nonempty_candidate_wins
    (pre : List SelOutcome) (o : SelOutcome) (rest rest2 : List SelOutcome)
    (hpre : ∀ p ∈ pre, p ≠ SelOutcome.err ∧ visibleOf p = [])
    (ho : visibleOf o ≠ []) :
    resolveLoop (pre ++ o :: rest) = Except.ok (some (visibleOf o)) ∧
    resolveLoop (pre ++ o :: rest) = resolveLoop (pre ++ o :: rest2) := by
  have key : ∀ (pre2 : List SelOutcome),
      (∀ p ∈ pre2, p ≠ SelOutcome.err ∧ visibleOf p = []) →
      ∀ (r : List SelOutcome),
        resolveLoop (pre2 ++ o :: r) = Except.ok (some (visibleOf o)) := by
    intro pre2
    induction pre2 with
    | nil => intro _ r; exact resolveLoop_hit o r ho
    | cons p ps ih =>
      intro hp r
      have h0 := hp p (List.mem_cons_self p ps)
      rw [List.cons_append, resolveLoop_skip p _ h0.1 h0.2]
      exact ih (fun q hq => hp q (List.mem_cons_of_mem p hq)) r
  exact ⟨key pre hpre rest, by rw [key pre hpre rest, key pre hpre rest2]⟩

/-- C2 witness, Scenario A of the spec: candidate A misses (times out),
candidate B yields two visible elements, candidate C would yield five — the
resolver returns exactly the two elements of B, and the result does not change
even if C is replaced by an erroring candidate, because C is never probed. -/
theorem resolver_first_nonempty_candidate_wins_witness :
    resolveLoop
        [SelOutcome.timeout,
         SelOutcome.found [⟨true, .ok "B one"⟩, ⟨true, .ok "B two"⟩],
         SelOutcome.found [⟨true, .ok "C1"⟩, ⟨true, .ok "C2"⟩, ⟨true, .ok "C3"⟩,
                           ⟨true, .ok "C4"⟩, ⟨true, .ok "C5"⟩]] =
      Except.ok (some [⟨true, .ok "B one"⟩, ⟨true, .ok "B two"⟩]) ∧
    resolveLoop
        [SelOutcome.timeout,
         SelOutcome.found [⟨true, .ok "B one"⟩, ⟨true, .ok "B two"⟩],
         SelOutcome.found [⟨true, .ok "C1"⟩, ⟨true, .ok "C2"⟩, ⟨true, .ok "C3"⟩,
                           ⟨true, .ok "C4"⟩, ⟨true, .ok "C5"⟩]] =
      resolveLoop
        [SelOutcome.timeout,
         SelOutcome.found [⟨true, .ok "B one"⟩, ⟨true, .ok "B two"⟩],
         SelOutcome.err] := by
  have h := resolver_first_nonempty_candidate_wins
    [SelOutcome.timeout]
    (SelOutcome.found [⟨true, .ok "B one"⟩, ⟨true, .ok "B two"⟩])
    [SelOutcome.found [⟨true, .ok "C1"⟩, ⟨true, .ok "C2"⟩, ⟨true, .ok "C3"⟩,
                       ⟨true, .ok "C4"⟩, ⟨true, .ok "C5"⟩]]
    [SelOutcome.err]
    (by decide) (by decide)
  exact ⟨h.1, h.2⟩

/-- C1 counterexample: on a page where the first container selector resolves
five visible elements, the first two rejected by the filter and the last three
passing, `extract(page, 3)` returns the single text of element 3 — not the
three texts of elements 3, 4 and 5 that the claim demands, because the loop
breaks at the third raw element rather than at the third accepted item. -/
theorem extract_does_not_scan_past_rejects_cex :
    extract_recent_posts fivePostsPage 3 = Except.ok ["Post three about Bkash offers"] ∧
    extract_recent_posts fivePostsPage 3 ≠
      Except.ok ["Post three about Bkash offers", "Post four about Bkash agents",
                 "Post five about Bkash rates"] :=
  ⟨by rfl, by decide⟩

/-- C1 (amended): the extraction loop breaks at the `count`-th raw element —
an element rejected by the filter (or skipped) still consumes one of the
`count` scanned positions, so only the first `count` resolved elements are
ever examined; in the five-element scenario with elements 1 and 2 rejected and
3, 4, 5 passing, the result is the text of element 3 alone. -/
theorem extract_scans_only_first_count_elements :
    (∀ (count : Nat) (els : List PostEl),
       scanPosts count els = scanPosts count (els.take count)) ∧
    extract_recent_posts fivePostsPage 3 = Except.ok ["Post three about Bkash offers"] := by
  constructor
  · intro count els
    have h := scanGo_take count els 0
    simpa [scanPosts] using h
  · rfl

/-- C3: an item whose stripped text length is at least the threshold 75 is
never rejected by the noise filter, noise phrases present or not — rejection
requires the conjunction of short length and a noise phrase (line 279). -/
theorem filter_conjunction_law (post_text : String)
    (h : 75 ≤ (pyStrip post_text).length) :
    isRejectedByFilter post_text = false := by
  unfold isRejectedByFilter
  have h2 : ¬((pyStrip post_text).length < 75) := by omega
  simp [h2]

/-- C3 witness: a 79-character text containing the noise phrase
"commented on this" is nevertheless not rejected. -/
theorem filter_conjunction_law_witness :
    75 ≤ (pyStrip "Dozens of customers commented on this detailed report about mobile banking fees").length ∧
    containsSubstr
        (pyLower "Dozens of customers commented on this detailed report about mobile banking fees")
        "commented on this" = true ∧
    isRejectedByFilter
        "Dozens of customers commented on this detailed report about mobile banking fees" = false :=
  ⟨by decide, by decide,
   filter_conjunction_law
     "Dozens of customers commented on this detailed report about mobile banking fees"
     (by decide)⟩

/-- C4: whenever `extract_recent_posts` returns a sequence, its length is at
most `count`; and returning fewer than `count` accepted items is an ordinary
`ok` outcome, exhibited on a page where five raw elements resolve (more than
`count = 3`) yet only one passes the filter. -/
theorem extract_never_exceeds_count (page : ExtractPage) (count : Nat)
    (posts : List String)
    (h : extract_recent_posts page count = Except.ok posts) :
    posts.length ≤ count ∧
    extract_recent_posts fivePostsPage 3 = Except.ok ["Post three about Bkash offers"] := by
  refine ⟨?_, by rfl⟩
  unfold extract_recent_posts at h
  cases hr : resolveLoop (post_container_selectors.map page.selectorOutcome) with
  | error e => rw [hr, pw_bind_err] at h; exact absurd h (by simp)
  | ok r =>
    rw [hr, pw_bind_ok] at h
    cases r with
    | none =>
      dsimp only at h
      cases hs : page.screenshot "no_posts_found_on_page.png" with
      | ok u =>
        cases u
        rw [hs, pw_bind_ok, pw_pure, Except.ok.injEq] at h
        simp [← h]
      | error e => rw [hs, pw_bind_err] at h; exact absurd h (by simp)
    | some els =>
      dsimp only at h
      cases hs : page.screenshot "post_extraction_attempt_done.png" with
      | ok u =>
        cases u
        rw [hs, pw_bind_ok, pw_pure, Except.ok.injEq] at h
        rw [← h]
        have hlen := scanGo_length_le count els 0
        simpa [scanPosts] using hlen
      | error e => rw [hs, pw_bind_err] at h; exact absurd h (by simp)

/-- C4 witness: at the concrete five-element page with `count = 3` the
returned sequence has length `1 ≤ 3`. -/
theorem extract_never_exceeds_count_witness :
    (["Post three about Bkash offers"] : List String).length ≤ 3 ∧
    extract_recent_posts fivePostsPage 3 = Except.ok ["Post three about Bkash offers"] :=
  extract_never_exceeds_count fivePostsPage 3 ["Post three about Bkash offers"] (by rfl)

/-- C10: an element whose `inner_text` raises, or whose text strips to the
empty string, is skipped without aborting — the scan continues with the next
element at the next index, so the skipped element still consumes one of the
`count` positions — and every string in the returned sequence is a non-empty
stripped text. -/
theorem extraction_skips_bad_elements :
    (∀ (count i : Nat) (el : PostEl) (rest : List PostEl) (e : PwError),
       el.innerTextRes = Except.error e →
       scanGo count i (el :: rest) = scanGo count (i + 1) rest) ∧
    (∀ (count i : Nat) (el : PostEl) (rest : List PostEl) (t : String),
       el.innerTextRes = Except.ok t → pyStrip t = "" →
       scanGo count i (el :: rest) = scanGo count (i + 1) rest) ∧
    (∀ (count : Nat) (els : List PostEl) (s : String),
       s ∈ scanPosts count els → s ≠ "" ∧ ∃ t, s = pyStrip t) := by
  refine ⟨?_, ?_, ?_⟩
  · intro count i el rest e hel
    by_cases h : count ≤ i
    · rw [scanGo_stop count _ i h, scanGo_stop count _ (i + 1) (by omega)]
    · simp only [scanGo, if_neg h, hel]
  · intro count i el rest t hel ht
    by_cases h : count ≤ i
    · rw [scanGo_stop count _ i h, scanGo_stop count _ (i + 1) (by omega)]
    · simp only [scanGo, if_neg h, hel, if_pos ht]
  · intro count els s hmem
    exact scanGo_mem count els 0 s hmem

/-- C10 witness: a raising element and a whitespace-only element are each
skipped with their position consumed, and a concrete extracted string is
non-empty and stripped. -/
theorem extraction_skips_bad_elements_witness :
    scanGo 3 0 [⟨true, Except.error PwError.other⟩, ⟨true, Except.ok "Fresh news about Bkash"⟩] =
      scanGo 3 1 [⟨true, Except.ok "Fresh news about Bkash"⟩] ∧
    scanGo 3 0 [⟨true, Except.ok "   "⟩] = scanGo 3 1 [] ∧
    ("Fresh news about Bkash" ≠ "" ∧ ∃ t, "Fresh news about Bkash" = pyStrip t) :=
  ⟨extraction_skips_bad_elements.1 3 0 _ _ PwError.other rfl,
   extraction_skips_bad_elements.2.1 3 0 _ _ "   " rfl (by rfl),
   extraction_skips_bad_elements.2.2 3 [⟨true, Except.ok "Fresh news about Bkash"⟩]
     "Fresh news about Bkash" (by decide)⟩

/-- C5: when the login flow reaches the post-submit classification, the URL
carries no checkpoint marker, but the email input is still present and
visible, `login_to_facebook` returns `False` (the branch of lines 134-137,
which records the `login_failed_email_still_visible` diagnostic). -/
theorem login_fails_when_email_still_visible
    (page : LoginPage) (email password : String)
    (hwE : page.waitEmail = Except.ok ())
    (hfE : page.fillEmail email = Except.ok ())
    (hwP : page.waitPass = Except.ok ())
    (hfP : page.fillPass password = Except.ok ())
    (hbtn : clickLoginButton page login_button_selectors = Except.ok true)
    (hckpt : containsSubstr (pyLower page.url) "checkpoint" = false)
    (hvis : emailStillVisible page = true)
    (hshot : page.screenshot "login_failed_email_still_visible.png" = Except.ok ()) :
    login_to_facebook page email password = Except.ok false := by
  unfold login_to_facebook loginAttempt
  rw [hwE, pw_bind_ok, hfE, pw_bind_ok, hwP, pw_bind_ok, hfP, pw_bind_ok,
      hbtn, pw_bind_ok]
  simp only [Bool.not_true, Bool.false_eq_true, if_false, hckpt, hvis, if_true,
    Bool.true_eq_false]
  rw [hshot, pw_bind_ok]
  rfl

/-- C5 witness: on the concrete page where the email field stays visible after
submit and the URL has no checkpoint marker, login returns `False`. -/
theorem login_fails_when_email_still_visible_witness :
    login_to_facebook c5Page "user@example.com" "hunter2" = Except.ok false :=
  login_fails_when_email_still_visible c5Page "user@example.com" "hunter2"
    rfl rfl rfl rfl (by rfl) (by decide) (by rfl) rfl

/-- C6 counterexample: on `c6TriggerPage` the first search candidate resolves
to a visible link-shaped trigger and is clicked, yet `search_facebook` returns
`False` — the follow-up fill of the default field selector times out and the
handler converts the raise into failure — contradicting the claim that failure
is reported only when no search affordance resolves at all. -/
theorem search_fails_despite_resolved_affordance_cex :
    c6TriggerPage.queryTrigger "a[aria-label*=\"Search\"]" = some c6Trigger ∧
    c6Trigger.visible = true ∧
    search_facebook c6TriggerPage "Bkash" = Except.ok false :=
  ⟨rfl, rfl, by rfl⟩

/-- C6 (amended): when the trigger loop fills and submits a search field,
`search_facebook` returns `True` even when neither the URL nor the title
contains the query (the soft validation only warns); it returns `False` when
no affordance resolves; but it also returns `False` when a collaborator error
aborts the interaction mid-way (for example the post-click fill of the default
field timing out), so an error-free interaction — not mere resolution of an
affordance — is what success requires. -/
theorem search_soft_validation_and_failure_modes :
    (∀ (page : SearchPage) (keyword : String),
       searchLoop page keyword search_trigger_selectors = Except.ok true →
       page.screenshot "search_results_page.png" = Except.ok () →
       searchSoftCheckFails page keyword = true →
       search_facebook page keyword = Except.ok true) ∧
    (∀ (page : SearchPage) (keyword : String),
       searchLoop page keyword search_trigger_selectors = Except.ok false →
       page.screenshot "search_trigger_not_found.png" = Except.ok () →
       search_facebook page keyword = Except.ok false) ∧
    (∀ (page : SearchPage) (keyword : String),
       searchLoop page keyword search_trigger_selectors = Except.error PwError.timeout →
       page.screenshot "search_timeout_error.png" = Except.ok () →
       search_facebook page keyword = Except.ok false) := by
  refine ⟨?_, ?_, ?_⟩
  · intro page keyword h1 h2 _h3
    unfold search_facebook searchAttempt
    rw [h1, pw_bind_ok]
    simp only [Bool.not_true, Bool.false_eq_true, if_false]
    rw [h2, pw_bind_ok]
    rfl
  · intro page keyword h1 h2
    unfold search_facebook searchAttempt
    rw [h1, pw_bind_ok]
    simp only [Bool.not_false, if_true]
    rw [h2, pw_bind_ok]
    rfl
  · intro page keyword h1 h2
    unfold search_facebook searchAttempt
    rw [h1, pw_bind_err]
    rw [h2, pw_bind_ok]
    rfl

/-- C6 amended witness: an input-shaped candidate run where URL and title lack
the query still returns `True`; a page with no affordance returns `False`; and
the trigger-then-timeout page returns `False`. -/
theorem search_soft_validation_and_failure_modes_witness :
    search_facebook c6InputPage "Bkash" = Except.ok true ∧
    search_facebook c6NonePage "Bkash" = Except.ok false ∧
    search_facebook c6TriggerPage "Bkash" = Except.ok false :=
  ⟨search_soft_validation_and_failure_modes.1 c6InputPage "Bkash" (by rfl) rfl (by rfl),
   search_soft_validation_and_failure_modes.2.1 c6NonePage "Bkash" (by rfl) rfl,
   search_soft_validation_and_failure_modes.2.2 c6TriggerPage "Bkash" (by rfl) rfl⟩

/-- C7 counterexample: the two diagnostic screenshots of
`extract_recent_posts` (lines 261 and 290) sit outside every `try`, so a
collaborator error raised by the screenshot call propagates out of the stage
to the caller instead of being converted to an empty-result outcome. -/
theorem stage_error_propagates_cex :
    extract_recent_posts c7ShotFailPage 3 = Except.error PwError.other := by rfl

theorem resolveLoop_no_err (outs : List SelOutcome)
    (h : ∀ o ∈ outs, o ≠ SelOutcome.err) :
    ∃ r, resolveLoop outs = Except.ok r := by
  induction outs with
  | nil => exact ⟨none, rfl⟩
  | cons o rest ih =>
    have ho := h o (List.mem_cons_self o rest)
    cases o with
    | timeout => exact ih (fun q hq => h q (List.mem_cons_of_mem _ hq))
    | err => exact absurd rfl ho
    | found els =>
      by_cases he : (els.filter (fun el => el.visible)).isEmpty
      · have hrest := ih (fun q hq => h q (List.mem_cons_of_mem _ hq))
        simpa [resolveLoop, he] using hrest
      · exact ⟨some (els.filter (fun el => el.visible)), by simp [resolveLoop, he]; rfl⟩

/-- C7 (amended): errors raised inside the `try` bodies of `login_to_facebook`
and `search_facebook` are caught by their handlers and converted to a boolean
outcome, and `extract_recent_posts` converts per-selector timeouts and
per-element text-read failures into skips; so whenever every diagnostic
screenshot call succeeds (and no container-selector probe raises a
non-timeout error), none of the three stages lets an exception propagate.
The exceptions that can still escape are exactly those of the counterexample:
screenshot calls outside a `try` (extraction) or inside an `except` handler
(login, search), and a generic selector-probe error in extraction. -/
theorem stages_catch_internal_errors :
    (∀ (page : LoginPage) (email password : String),
       (∀ path, page.screenshot path = Except.ok ()) →
       ∃ b, login_to_facebook page email password = Except.ok b) ∧
    (∀ (page : SearchPage) (keyword : String),
       (∀ path, page.screenshot path = Except.ok ()) →
       ∃ b, search_facebook page keyword = Except.ok b) ∧
    (∀ (page : ExtractPage) (count : Nat),
       (∀ path, page.screenshot path = Except.ok ()) →
       (∀ sel, page.selectorOutcome sel ≠ SelOutcome.err) →
       ∃ posts, extract_recent_posts page count = Except.ok posts) := by
  refine ⟨?_, ?_, ?_⟩
  · intro page email password hshot
    unfold login_to_facebook
    cases h : loginAttempt page email password with
    | ok b => exact ⟨b, rfl⟩
    | error e =>
      cases e with
      | timeout =>
        refine ⟨false, ?_⟩
        rw [hshot "login_timeout_error.png", pw_bind_ok]
        rfl
      | other =>
        refine ⟨false, ?_⟩
        rw [hshot "login_generic_error.png", pw_bind_ok]
        rfl
  · intro page keyword hshot
    unfold search_facebook
    cases h : searchAttempt page keyword with
    | ok b => exact ⟨b, rfl⟩
    | error e =>
      cases e with
      | timeout =>
        refine ⟨false, ?_⟩
        rw [hshot "search_timeout_error.png", pw_bind_ok]
        rfl
      | other =>
        refine ⟨false, ?_⟩
        rw [hshot "search_generic_error.png", pw_bind_ok]
        rfl
  · intro page count hshot hsel
    have hno : ∀ o ∈ post_container_selectors.map page.selectorOutcome,
        o ≠ SelOutcome.err := by
      intro o ho
      rcases List.mem_map.mp ho with ⟨sel, _, rfl⟩
      exact hsel sel
    rcases resolveLoop_no_err _ hno with ⟨r, hr⟩
    unfold extract_recent_posts
    rw [hr, pw_bind_ok]
    cases r with
    | none =>
      refine ⟨[], ?_⟩
      dsimp only
      rw [hshot "no_posts_found_on_page.png", pw_bind_ok]
      rfl
    | some els =>
      refine ⟨scanPosts count els, ?_⟩
      dsimp only
      rw [hshot "post_extraction_attempt_done.png", pw_bind_ok]
      rfl

/-- C7 amended witness: on the concrete all-succeeding pages, each of the
three stages returns a normal outcome. -/
theorem stages_catch_internal_errors_witness :
    (∃ b, login_to_facebook c5Page "user@example.com" "hunter2" = Except.ok b) ∧
    (∃ b, search_facebook c6InputPage "Bkash" = Except.ok b) ∧
    (∃ posts, extract_recent_posts fivePostsPage 3 = Except.ok posts) :=
  ⟨stages_catch_internal_errors.1 c5Page "user@example.com" "hunter2" (fun _ => rfl),
   stages_catch_internal_errors.2.1 c6InputPage "Bkash" (fun _ => rfl),
   stages_catch_internal_errors.2.2 fivePostsPage 3 (fun _ => rfl)
     (fun sel => by unfold fivePostsPage; dsimp only; split <;> simp)⟩

theorem mainRun_trace_eq (e1 e2 : Option String) (w : World) :
    (mainRun e1 e2 w).1 =
      (mainBody w (resolveCredentials e1 e2).1 (resolveCredentials e1 e2).2.1).1 ++
        (match w.launchRes with
         | .ok _ => [MainEvent.closeBrowser]
         | .error _ => []) := by
  unfold mainRun
  cases hl : w.launchRes with
  | ok u =>
    cases u
    cases h2 : (mainBody w (resolveCredentials e1 e2).1 (resolveCredentials e1 e2).2.1).2 with
    | ok v => simp [hl, h2]
    | error e =>
      cases hm : w.mainErrScreenshot with
      | ok v => simp [hl, h2, hm]
      | error e3 => simp [hl, h2, hm]
  | error e =>
    cases h2 : (mainBody w (resolveCredentials e1 e2).1 (resolveCredentials e1 e2).2.1).2 with
    | ok v => simp [hl, h2]
    | error e3 => simp [hl, h2]

theorem mainBody_trace_contains_login (w : World) (email password : String)
    (hl : w.launchRes = Except.ok ())
    (hbody : (do w.gotoRes; w.homeScreenshot; cookieLoop w cookie_banner_selectors :
        PwResult Unit) = Except.ok ()) :
    MainEvent.loginCall email password ∈ (mainBody w email password).1 := by
  unfold mainBody
  rw [hl]
  dsimp only
  rw [hbody]
  dsimp only
  cases hlog : login_to_facebook w.loginPage email password with
  | error e => simp
  | ok b =>
    cases b with
    | false => simp
    | true =>
      cases hsr : search_facebook w.searchPage "Bkash" with
      | error e => simp
      | ok b2 =>
        cases b2 with
        | false => simp
        | true =>
          cases hex : extract_recent_posts w.extractPage 3 with
          | error e => simp
          | ok posts => simp

/-- C8: once the browser launch has succeeded, every exit path of the run —
normal completion, any stage failure, and any raise escaping the body or even
the handler screenshot — ends with the `finally` close of the session, so the
trace always finishes with `closeBrowser`; and when the launch itself raised,
no session exists and no close happens. -/
theorem browser_session_always_closed (e1 e2 : Option String) (w : World) :
    (w.launchRes = Except.ok () →
       ∃ evs, (mainRun e1 e2 w).1 = evs ++ [MainEvent.closeBrowser]) ∧
    (∀ e, w.launchRes = Except.error e →
       MainEvent.closeBrowser ∉ (mainRun e1 e2 w).1) := by
  constructor
  · intro h
    refine ⟨(mainBody w (resolveCredentials e1 e2).1 (resolveCredentials e1 e2).2.1).1, ?_⟩
    rw [mainRun_trace_eq, h]
  · intro e h
    rw [mainRun_trace_eq]
    have hb : (mainBody w (resolveCredentials e1 e2).1
        (resolveCredentials e1 e2).2.1).1 = [] := by
      simp [mainBody, h]
    simp [hb, h]

/-- C8 witness: in the all-succeeding world the trace ends with the session
close, and in the world where the launch raises no close event appears. -/
theorem browser_session_always_closed_witness :
    (∃ evs, (mainRun (some "user@example.com") (some "hunter2") demoWorld).1 =
        evs ++ [MainEvent.closeBrowser]) ∧
    MainEvent.closeBrowser ∉ (mainRun (some "user@example.com") (some "hunter2") noLaunchWorld).1 :=
  ⟨(browser_session_always_closed (some "user@example.com") (some "hunter2") demoWorld).1 rfl,
   (browser_session_always_closed (some "user@example.com") (some "hunter2") noLaunchWorld).2
     PwError.other rfl⟩

/-- C9: if `FB_EMAIL` or `FB_PASSWORD` is unset or empty, BOTH credentials are
replaced by the placeholder sentinels — a valid value supplied for the other
variable is discarded too — and the run still invokes the login attempt with
those sentinels once it reaches the login stage. -/
theorem placeholder_credentials_when_env_missing
    (e1 e2 : Option String) (w : World)
    (hmiss : envMissing e1 = true ∨ envMissing e2 = true) :
    resolveCredentials e1 e2 = ("YOUR_EMAIL", "YOUR_PASSWORD", true) ∧
    (w.launchRes = Except.ok () →
     (do w.gotoRes; w.homeScreenshot; cookieLoop w cookie_banner_selectors :
         PwResult Unit) = Except.ok () →
     MainEvent.loginCall "YOUR_EMAIL" "YOUR_PASSWORD" ∈ (mainRun e1 e2 w).1) := by
  have hcred : resolveCredentials e1 e2 = ("YOUR_EMAIL", "YOUR_PASSWORD", true) := by
    unfold resolveCredentials
    rcases hmiss with h | h
    · simp [h]
    · simp [h]
  refine ⟨hcred, ?_⟩
  intro hl hbody
  rw [mainRun_trace_eq]
  refine List.mem_append_left _ ?_
  have hmem := mainBody_trace_contains_login w (resolveCredentials e1 e2).1
    (resolveCredentials e1 e2).2.1 hl hbody
  rw [hcred] at hmem
  simpa [hcred] using hmem

/-- C9 witness: with `FB_EMAIL` unset but `FB_PASSWORD` set to a real value,
both credentials become the sentinels and the login attempt is still made with
them. -/
theorem placeholder_credentials_when_env_missing_witness :
    resolveCredentials none (some "hunter2") = ("YOUR_EMAIL", "YOUR_PASSWORD", true) ∧
    MainEvent.loginCall "YOUR_EMAIL" "YOUR_PASSWORD" ∈
      (mainRun none (some "hunter2") demoWorld).1 := by
  have h := placeholder_credentials_when_env_missing none (some "hunter2") demoWorld
    (Or.inl rfl)
  exact ⟨h.1, h.2 rfl (by rfl)⟩
